import Mathlib

/-!
Shallow embedding of `snapcraft/plugins/v2/ruby.py` (the `RubyPlugin` class):
its validation schema, build-package and build-environment derivation, the
configure-option assembly, and the build-command plan assembly.  Dictionaries
become association lists (preserving insertion order), Python sets become
`Finset String`, and f-strings become explicit `++` concatenation.
-/

/-- A small JSON value type, enough to embed the literal schema dictionary
returned by `RubyPlugin.get_schema` and the raw option mappings fed to the
(external) schema validator. -/
inductive JsonValue where
  | str : String → JsonValue
  | bool : Bool → JsonValue
  | arr : List JsonValue → JsonValue
  | obj : List (String × JsonValue) → JsonValue

/-- Field lookup inside a JSON object (first binding wins, as in a Python
dict literal without duplicate keys). -/
def JsonValue.lookup : JsonValue → String → Option JsonValue
  | .obj fields, k => List.lookup k fields
  | _, _ => none

/-- The property list of a JSON object (empty for non-objects). -/
def JsonValue.objFields : JsonValue → List (String × JsonValue)
  | .obj fields => fields
  | _ => []

/-- The plugin options record: one field per schema property, with the same
spelling as the Python attribute access `self.options.ruby_*`. -/
structure RubyOptions where
  ruby_flavor : String
  ruby_version : String
  ruby_use_bundler : Bool
  ruby_prefix : String
  ruby_use_jemalloc : Bool
  ruby_shared : Bool
  ruby_configure_options : List String
  ruby_gems : List String
deriving DecidableEq

/-- The fully-defaulted options: `\x7b\x7d` validated against the schema,
every schema default applied. -/
def defaultOptions : RubyOptions :=
  ⟨"ruby", "3.0", false, "/usr", false, false, [], []⟩

/-- `RubyPlugin.get_schema`: the literal draft-04 JSON schema dictionary,
embedded field by field in source order. -/
def get_schema : JsonValue :=
  .obj
    [("$schema", .str "http://json-schema.org/draft-04/schema#"),
     ("type", .str "object"),
     ("additionalProperties", .bool false),
     ("properties", .obj
       [("ruby-flavor", .obj
          [("type", .str "string"),
           ("default", .str "ruby")]),
        ("ruby-version", .obj
          [("type", .str "string"),
           ("default", .str "3.0"),
           ("pattern", .str "^\\d+\\.\\d+(\\.\\d+)?$")]),
        ("ruby-use-bundler", .obj
          [("type", .str "boolean"),
           ("default", .bool false)]),
        ("ruby-prefix", .obj
          [("type", .str "string"),
           ("default", .str "/usr")]),
        ("ruby-use-jemalloc", .obj
          [("type", .str "boolean"),
           ("default", .bool false)]),
        ("ruby-shared", .obj
          [("type", .str "boolean"),
           ("default", .bool false)]),
        ("ruby-configure-options", .obj
          [("type", .str "array"),
           ("items", .obj [("type", .str "string")]),
           ("default", .arr [])]),
        ("ruby-gems", .obj
          [("type", .str "array"),
           ("items", .obj [("type", .str "string")]),
           ("default", .arr [])])])]

/-- `RubyPlugin.get_build_snaps`: `return set()`. -/
def get_build_snaps (_ : RubyOptions) : Finset String := ∅

/-- `RubyPlugin.get_build_packages`: `\x7b"curl"\x7d`, plus
`libjemalloc-dev` when `ruby_use_jemalloc` is set. -/
def get_build_packages (o : RubyOptions) : Finset String :=
  if o.ruby_use_jemalloc then insert "libjemalloc-dev" ({"curl"} : Finset String)
  else {"curl"}

/-- `RubyPlugin.get_build_environment`: a `PATH` entry always, plus an
`LD_LIBRARY_PATH` entry when `ruby_shared` is set (dict insertion order). -/
def get_build_environment (o : RubyOptions) : List (String × String) :=
  [("PATH",
    "$\x7bSNAPCRAFT_PART_INSTALL\x7d" ++ o.ruby_prefix ++ "/bin:$\x7bPATH\x7d")]
  ++ (if o.ruby_shared then
        [("LD_LIBRARY_PATH",
          "$\x7bSNAPCRAFT_PART_INSTALL\x7d" ++ o.ruby_prefix ++
            "/lib$\x7bLD_LIBRARY_PATH:+:$LD_LIBRARY_PATH\x7d")]
      else [])

/-- Pinned ruby-install release (`ruby_install_version` local in
`get_build_commands`). -/
def ruby_install_version : String := "0.8.5"

/-- Pinned expected checksum line (`ruby_install_checksum` local in
`get_build_commands`). -/
def ruby_install_checksum : String :=
  "SHA256 (ruby-install.tar.gz) = 793fcf44dce375c6c191003c3bfd22ebc85fa296d751808ab315872f5ee0179b"

/-- `RubyPlugin._configure_opts`: three baseline flags, then the
caller-supplied options, then `--enable-shared` when `ruby_shared`, then
`--with-jemalloc` when `ruby_use_jemalloc` (the source appends in exactly
this order). -/
def _configure_opts (o : RubyOptions) : List String :=
  ["--without-baseruby", "--enable-load-relative", "--disable-install-doc"]
  ++ o.ruby_configure_options
  ++ (if o.ruby_shared then ["--enable-shared"] else [])
  ++ (if o.ruby_use_jemalloc then ["--with-jemalloc"] else [])

/-- `RubyPlugin.get_build_commands`: ten unconditional commands (download,
two banner echoes interleaved with checksum computation and display, the
strict checksum assertion, unpack, ruby-install invocation, bundler-binary
removal, bundler install), then `bundle` when `ruby_use_bundler`, then one
`gem install` of `ruby_gems` when that list is non-empty. -/
def get_build_commands (o : RubyOptions) : List String :=
  ["curl -L --proto \x27=https\x27 --tlsv1.2 https://github.com/postmodern/ruby-install/archive/refs/tags/v"
     ++ ruby_install_version ++ ".tar.gz -o ruby-install.tar.gz",
   "echo \x27Checksum of downloaded file:\x27",
   "sha256sum --tag ruby-install.tar.gz",
   "echo \x27Checksum is correct if it matches:\x27",
   "echo \x27" ++ ruby_install_checksum ++ "\x27",
   "echo \x27" ++ ruby_install_checksum ++ "\x27 | sha256sum --check --strict",
   "tar xfz ruby-install.tar.gz",
   "ruby-install-" ++ ruby_install_version ++
     "/bin/ruby-install --src-dir $\x7bSNAPCRAFT_PART_SRC\x7d --install-dir $\x7bSNAPCRAFT_PART_INSTALL\x7d"
     ++ o.ruby_prefix ++
     " --package-manager apt --jobs=$\x7bSNAPCRAFT_PARALLEL_BUILD_COUNT\x7d "
     ++ o.ruby_flavor ++ "-" ++ o.ruby_version ++ " -- "
     ++ String.intercalate " " (_configure_opts o),
   "rm -f $\x7bSNAPCRAFT_PART_INSTALL\x7d" ++ o.ruby_prefix ++
     "/bin/\x7bbundle,bundler\x7d",
   "gem install --env-shebang --no-document bundler"]
  ++ (if o.ruby_use_bundler then ["bundle"] else [])
  ++ (if o.ruby_gems.isEmpty then []
      else ["gem install --env-shebang --no-document "
              ++ String.intercalate " " o.ruby_gems])

/-- Splitting a character list at every dot (the empty list yields one
empty group, as splitting an empty string does). -/
def splitDots : List Char → List (List Char)
  | [] => [[]]
  | c :: rest =>
    if c = '.' then [] :: splitDots rest
    else
      match splitDots rest with
      | [] => [[c]]
      | g :: gs => (c :: g) :: gs

/-- Modelled from the spec: the semantics of the anchored schema regex
`^\d+\.\d+(\.\d+)?$` (the regex engine that interprets the pattern string is
the external jsonschema validator, not part of this repository).  A string
matches exactly when it is two or three dot-separated components, each a
non-empty run of decimal digits. -/
def matches_version_pattern (s : String) : Bool :=
  let parts := splitDots s.data
  (parts.length = 2 || parts.length = 3)
    && parts.all (fun p => !p.isEmpty && p.all Char.isDigit)

/-- The eight recognized option keys, in schema order. -/
def recognized_keys : List String :=
  ["ruby-flavor", "ruby-version", "ruby-use-bundler", "ruby-prefix",
   "ruby-use-jemalloc", "ruby-shared", "ruby-configure-options", "ruby-gems"]

/-- Modelled from the spec: reading a string-typed option from the raw
mapping, substituting the schema default when absent (part of the external
validator, §4.1 of the spec). -/
def stringField (raw : List (String × JsonValue)) (key dflt : String) :
    Except String String :=
  match List.lookup key raw with
  | none => .ok dflt
  | some (.str s) => .ok s
  | some _ => .error ("SchemaViolation: " ++ key)

/-- Modelled from the spec: reading a boolean-typed option from the raw
mapping, substituting the schema default when absent. -/
def boolField (raw : List (String × JsonValue)) (key : String) (dflt : Bool) :
    Except String Bool :=
  match List.lookup key raw with
  | none => .ok dflt
  | some (.bool b) => .ok b
  | some _ => .error ("SchemaViolation: " ++ key)

/-- Modelled from the spec: reading an array-of-string option from the raw
mapping, substituting the schema default when absent. -/
def stringArrayField (raw : List (String × JsonValue)) (key : String)
    (dflt : List String) : Except String (List String) :=
  match List.lookup key raw with
  | none => .ok dflt
  | some (.arr xs) =>
    match xs.mapM (fun v => match v with | .str s => some s | _ => none) with
    | some ss => .ok ss
    | none => .error ("SchemaViolation: " ++ key)
  | some _ => .error ("SchemaViolation: " ++ key)

/-- Modelled from the spec: the Configuration Validator (§4.1).  The
validation engine applying `get_schema` lives in the external jsonschema
library, outside this repository; this follows the spec contract: unknown
keys are rejected (`additionalProperties: false`), each recognized key is
type-checked or defaulted, and `ruby-version` must match the schema
pattern.  Errors stand for `SchemaViolation`. -/
def validate (raw : List (String × JsonValue)) : Except String RubyOptions := do
  if raw.all (fun kv => recognized_keys.contains kv.1) then
    let flavor ← stringField raw "ruby-flavor" "ruby"
    let version ← stringField raw "ruby-version" "3.0"
    if matches_version_pattern version then
      let useBundler ← boolField raw "ruby-use-bundler" false
      let pfx ← stringField raw "ruby-prefix" "/usr"
      let useJemalloc ← boolField raw "ruby-use-jemalloc" false
      let shared ← boolField raw "ruby-shared" false
      let copts ← stringArrayField raw "ruby-configure-options" []
      let gems ← stringArrayField raw "ruby-gems" []
      return ⟨flavor, version, useBundler, pfx, useJemalloc, shared, copts, gems⟩
    else
      .error "SchemaViolation: ruby-version"
  else
    .error "SchemaViolation: additionalProperties"

/-! ## Helper lemmas for string disequality -/

/-- Two strings with different first characters are different. -/
theorem string_head_ne {s t : String} (h : s.data.head? ≠ t.data.head?) :
    s ≠ t :=
  fun he => h (by rw [he])

/-- The first character of an appended string is that of its (non-empty)
left part. -/
theorem head_of_append {a : String} (s : String) {c : Char}
    (h : a.data.head? = some c) : (a ++ s).data.head? = some c := by
  rw [String.data_append]
  cases hd : a.data with
  | nil => rw [hd] at h; exact absurd h (by simp)
  | cons x l => rw [hd] at h; simp at h; simp [h]

/-- A fully non-default configuration, used to instantiate the quantified
theorems at a concrete input. -/
def sampleOptions : RubyOptions :=
  ⟨"jruby", "2.7.2", true, "/opt", true, true, ["--foo", "--bar"],
   ["rake", "rspec"]⟩

/-- C10: the plugin never requires any build snaps. -/
theorem build_snaps_always_empty (o : RubyOptions) :
    get_build_snaps o = ∅ := rfl

/-- C10 (witness): evaluated at a concrete non-default configuration. -/
theorem build_snaps_always_empty_witness :
    get_build_snaps sampleOptions = ∅ :=
  build_snaps_always_empty sampleOptions

/-- C1 (counterexample): with all defaults the assembled command list does
not consist of 8 commands — it has 10, because two banner-echo commands
accompany the checksum computation and display. -/
theorem default_plan_not_eight_commands :
    (get_build_commands defaultOptions).length ≠ 8 := by decide

/-- C1 (amended): for the empty input mapping (all defaults) the
requirements are exactly the curl package, the environment is exactly the
one PATH entry, and the plan is exactly these ten commands: download,
actual-checksum banner, actual-checksum computation, expected-checksum
banner, expected-checksum display, checksum assertion, unpack, installer
invocation, bundler-executable removal, bundler install. -/
theorem default_plan_end_to_end :
    get_build_packages defaultOptions = {"curl"}
    ∧ get_build_environment defaultOptions
        = [("PATH", "$\x7bSNAPCRAFT_PART_INSTALL\x7d/usr/bin:$\x7bPATH\x7d")]
    ∧ get_build_commands defaultOptions
        = ["curl -L --proto \x27=https\x27 --tlsv1.2 https://github.com/postmodern/ruby-install/archive/refs/tags/v0.8.5.tar.gz -o ruby-install.tar.gz",
           "echo \x27Checksum of downloaded file:\x27",
           "sha256sum --tag ruby-install.tar.gz",
           "echo \x27Checksum is correct if it matches:\x27",
           "echo \x27SHA256 (ruby-install.tar.gz) = 793fcf44dce375c6c191003c3bfd22ebc85fa296d751808ab315872f5ee0179b\x27",
           "echo \x27SHA256 (ruby-install.tar.gz) = 793fcf44dce375c6c191003c3bfd22ebc85fa296d751808ab315872f5ee0179b\x27 | sha256sum --check --strict",
           "tar xfz ruby-install.tar.gz",
           "ruby-install-0.8.5/bin/ruby-install --src-dir $\x7bSNAPCRAFT_PART_SRC\x7d --install-dir $\x7bSNAPCRAFT_PART_INSTALL\x7d/usr --package-manager apt --jobs=$\x7bSNAPCRAFT_PARALLEL_BUILD_COUNT\x7d ruby-3.0 -- --without-baseruby --enable-load-relative --disable-install-doc",
           "rm -f $\x7bSNAPCRAFT_PART_INSTALL\x7d/usr/bin/\x7bbundle,bundler\x7d",
           "gem install --env-shebang --no-document bundler"] :=
  ⟨rfl, rfl, rfl⟩

/-- The configure-option list regrouped as prefix-part and suffix-part. -/
theorem configure_opts_split (o : RubyOptions) :
    _configure_opts o
      = (["--without-baseruby", "--enable-load-relative",
          "--disable-install-doc"] ++ o.ruby_configure_options)
        ++ ((if o.ruby_shared = true then ["--enable-shared"] else [])
            ++ (if o.ruby_use_jemalloc = true then ["--with-jemalloc"]
                else [])) := by
  simp [_configure_opts]

/-- C2: the first `3 + n` configure flags are exactly the three baseline
flags followed by the `n` caller-supplied options in their given order, and
the remainder is exactly the shared-library flag (present iff `ruby_shared`)
followed by the allocator flag (present iff `ruby_use_jemalloc`) — so the
conditional flags, when present, appear strictly after all baseline and
caller-supplied flags. -/
theorem configure_opts_structure (o : RubyOptions) :
    (_configure_opts o).take (3 + o.ruby_configure_options.length)
      = ["--without-baseruby", "--enable-load-relative",
         "--disable-install-doc"] ++ o.ruby_configure_options
    ∧ (_configure_opts o).drop (3 + o.ruby_configure_options.length)
      = (if o.ruby_shared = true then ["--enable-shared"] else [])
        ++ (if o.ruby_use_jemalloc = true then ["--with-jemalloc"]
            else []) := by
  rw [configure_opts_split o]
  exact ⟨List.take_left' (by simp; omega), List.drop_left' (by simp; omega)⟩

/-- C2 (witness): with extra options `--foo --bar` and both booleans set,
the flag list splits as stated, conditional flags last. -/
theorem configure_opts_structure_witness :
    (_configure_opts sampleOptions).take 5
      = ["--without-baseruby", "--enable-load-relative",
         "--disable-install-doc", "--foo", "--bar"]
    ∧ (_configure_opts sampleOptions).drop 5
      = ["--enable-shared", "--with-jemalloc"] := by
  simpa [sampleOptions] using configure_opts_structure sampleOptions

/-- C4: the build-package set always contains curl, and contains
libjemalloc-dev exactly when `ruby_use_jemalloc` is set. -/
theorem build_packages_spec (o : RubyOptions) :
    "curl" ∈ get_build_packages o
    ∧ ("libjemalloc-dev" ∈ get_build_packages o
        ↔ o.ruby_use_jemalloc = true) := by
  cases h : o.ruby_use_jemalloc <;> simp [get_build_packages, h]

/-- C4 (witness): with the allocator override on, both packages are
required. -/
theorem build_packages_spec_witness :
    "curl" ∈ get_build_packages sampleOptions
    ∧ ("libjemalloc-dev" ∈ get_build_packages sampleOptions
        ↔ sampleOptions.ruby_use_jemalloc = true) :=
  build_packages_spec sampleOptions

/-- C5: the environment always maps PATH to the install-root bin directory
prefixed ahead of the inherited PATH, and it contains an LD_LIBRARY_PATH
entry exactly when `ruby_shared` is set, in which case that entry prefixes
the install prefix lib directory with the appended-only-if-non-empty
guard. -/
theorem build_environment_spec (o : RubyOptions) :
    List.lookup "PATH" (get_build_environment o)
      = some ("$\x7bSNAPCRAFT_PART_INSTALL\x7d" ++ o.ruby_prefix
          ++ "/bin:$\x7bPATH\x7d")
    ∧ ((∃ v, ("LD_LIBRARY_PATH", v) ∈ get_build_environment o)
        ↔ o.ruby_shared = true)
    ∧ (o.ruby_shared = true →
        ("LD_LIBRARY_PATH",
          "$\x7bSNAPCRAFT_PART_INSTALL\x7d" ++ o.ruby_prefix
            ++ "/lib$\x7bLD_LIBRARY_PATH:+:$LD_LIBRARY_PATH\x7d")
          ∈ get_build_environment o) := by
  cases h : o.ruby_shared <;> simp [get_build_environment, h, List.lookup]

/-- C5 (witness): with `ruby_shared` on and prefix `/opt`, both entries are
present as stated. -/
theorem build_environment_spec_witness :
    sampleOptions.ruby_shared = true
    ∧ ("LD_LIBRARY_PATH",
        "$\x7bSNAPCRAFT_PART_INSTALL\x7d/opt/lib$\x7bLD_LIBRARY_PATH:+:$LD_LIBRARY_PATH\x7d")
        ∈ get_build_environment sampleOptions :=
  ⟨rfl, (build_environment_spec sampleOptions).2.2 rfl⟩

/-- C6: plan assembly is deterministic — identical configurations yield
identical command sequences, package sets and environment mappings. -/
theorem plan_deterministic (o₁ o₂ : RubyOptions) (h : o₁ = o₂) :
    get_build_commands o₁ = get_build_commands o₂
    ∧ get_build_packages o₁ = get_build_packages o₂
    ∧ get_build_environment o₁ = get_build_environment o₂ := by
  subst h; exact ⟨rfl, rfl, rfl⟩

/-- C6 (witness): instantiated at a concrete configuration. -/
theorem plan_deterministic_witness :
    get_build_commands sampleOptions = get_build_commands sampleOptions
    ∧ get_build_packages sampleOptions = get_build_packages sampleOptions
    ∧ get_build_environment sampleOptions
        = get_build_environment sampleOptions :=
  plan_deterministic sampleOptions sampleOptions rfl

/-- C9: every plan has, at positions 8 and 9, the removal of pre-existing
bundler executables immediately followed by the bundler install command,
regardless of `ruby_use_bundler` and `ruby_gems`. -/
theorem bundler_bootstrap_unconditional (o : RubyOptions) :
    (get_build_commands o).get? 8
      = some ("rm -f $\x7bSNAPCRAFT_PART_INSTALL\x7d" ++ o.ruby_prefix
          ++ "/bin/\x7bbundle,bundler\x7d")
    ∧ (get_build_commands o).get? 9
      = some "gem install --env-shebang --no-document bundler" :=
  ⟨rfl, rfl⟩

/-- C9 (witness): evaluated at a configuration with bundler off and no
gems requested (`defaultOptions`) the two bootstrap commands are still
emitted. -/
theorem bundler_bootstrap_unconditional_witness :
    (get_build_commands defaultOptions).get? 8
      = some "rm -f $\x7bSNAPCRAFT_PART_INSTALL\x7d/usr/bin/\x7bbundle,bundler\x7d"
    ∧ (get_build_commands defaultOptions).get? 9
      = some "gem install --env-shebang --no-document bundler" := by
  simpa [defaultOptions] using bundler_bootstrap_unconditional defaultOptions

/-- Strings whose first characters differ are different, with the left one
given as an append. -/
theorem append_head_ne {a t : String} {c : Char} (s : String)
    (ha : a.data.head? = some c) (ht : t.data.head? ≠ some c) :
    a ++ s ≠ t := by
  apply string_head_ne
  rw [head_of_append s ha]
  exact fun he => ht he.symm

/-- First character of the ruby-install invocation command. -/
theorem ruby_install_invocation_head (o : RubyOptions) :
    ("ruby-install-" ++ ruby_install_version
      ++ "/bin/ruby-install --src-dir $\x7bSNAPCRAFT_PART_SRC\x7d --install-dir $\x7bSNAPCRAFT_PART_INSTALL\x7d"
      ++ o.ruby_prefix
      ++ " --package-manager apt --jobs=$\x7bSNAPCRAFT_PARALLEL_BUILD_COUNT\x7d "
      ++ o.ruby_flavor ++ "-" ++ o.ruby_version ++ " -- "
      ++ String.intercalate " " (_configure_opts o)).data.head? = some 'r' :=
  head_of_append _ (head_of_append _ (head_of_append _ (head_of_append _
    (head_of_append _ (head_of_append _ (head_of_append _ (head_of_append _
      (head_of_append _ rfl))))))))

/-- First character of the bundler-removal command. -/
theorem rm_bundler_head (o : RubyOptions) :
    ("rm -f $\x7bSNAPCRAFT_PART_INSTALL\x7d" ++ o.ruby_prefix
      ++ "/bin/\x7bbundle,bundler\x7d").data.head? = some 'r' :=
  head_of_append _ (head_of_append _ rfl)

/-- First character of the gem-install command for a gem list. -/
theorem gem_install_gems_head (gems : List String) :
    ("gem install --env-shebang --no-document "
      ++ String.intercalate " " gems).data.head? = some 'g' :=
  head_of_append _ rfl

/-- The string `bundle` is not the ruby-install invocation command. -/
theorem bundle_ne_ruby_install_cmd (o : RubyOptions) :
    ¬("bundle"
      = "ruby-install-" ++ ruby_install_version
        ++ "/bin/ruby-install --src-dir $\x7bSNAPCRAFT_PART_SRC\x7d --install-dir $\x7bSNAPCRAFT_PART_INSTALL\x7d"
        ++ o.ruby_prefix
        ++ " --package-manager apt --jobs=$\x7bSNAPCRAFT_PARALLEL_BUILD_COUNT\x7d "
        ++ o.ruby_flavor ++ "-" ++ o.ruby_version ++ " -- "
        ++ String.intercalate " " (_configure_opts o)) :=
  fun h =>
    string_head_ne (t := "bundle")
      (by rw [ruby_install_invocation_head]; decide) h.symm

/-- The string `bundle` is not the bundler-removal command. -/
theorem bundle_ne_rm_cmd (o : RubyOptions) :
    ¬("bundle"
      = "rm -f $\x7bSNAPCRAFT_PART_INSTALL\x7d" ++ o.ruby_prefix
        ++ "/bin/\x7bbundle,bundler\x7d") :=
  fun h =>
    string_head_ne (t := "bundle") (by rw [rm_bundler_head]; decide) h.symm

/-- The string `bundle` is not a gem-install command. -/
theorem bundle_ne_gem_cmd (gems : List String) :
    ¬("bundle"
      = "gem install --env-shebang --no-document "
        ++ String.intercalate " " gems) :=
  fun h =>
    string_head_ne (t := "bundle")
      (by rw [gem_install_gems_head]; decide) h.symm

/-- The plan decomposed: its first ten commands are the unconditional ones,
and the remainder is the optional `bundle` run followed by the optional
gem-install command. -/
theorem plan_take_drop (o : RubyOptions) :
    (get_build_commands o).take 10
      = ["curl -L --proto \x27=https\x27 --tlsv1.2 https://github.com/postmodern/ruby-install/archive/refs/tags/v"
           ++ ruby_install_version ++ ".tar.gz -o ruby-install.tar.gz",
         "echo \x27Checksum of downloaded file:\x27",
         "sha256sum --tag ruby-install.tar.gz",
         "echo \x27Checksum is correct if it matches:\x27",
         "echo \x27" ++ ruby_install_checksum ++ "\x27",
         "echo \x27" ++ ruby_install_checksum
           ++ "\x27 | sha256sum --check --strict",
         "tar xfz ruby-install.tar.gz",
         "ruby-install-" ++ ruby_install_version ++
           "/bin/ruby-install --src-dir $\x7bSNAPCRAFT_PART_SRC\x7d --install-dir $\x7bSNAPCRAFT_PART_INSTALL\x7d"
           ++ o.ruby_prefix ++
           " --package-manager apt --jobs=$\x7bSNAPCRAFT_PARALLEL_BUILD_COUNT\x7d "
           ++ o.ruby_flavor ++ "-" ++ o.ruby_version ++ " -- "
           ++ String.intercalate " " (_configure_opts o),
         "rm -f $\x7bSNAPCRAFT_PART_INSTALL\x7d" ++ o.ruby_prefix ++
           "/bin/\x7bbundle,bundler\x7d",
         "gem install --env-shebang --no-document bundler"]
    ∧ (get_build_commands o).drop 10
      = (if o.ruby_use_bundler = true then ["bundle"] else [])
        ++ (if o.ruby_gems.isEmpty = true then []
            else ["gem install --env-shebang --no-document "
                    ++ String.intercalate " " o.ruby_gems]) :=
  ⟨rfl, rfl⟩

/-- C3: the plan contains the dependency-manager-run command `bundle`
exactly when `ruby_use_bundler` is set (count 1 versus 0), and when present
it sits at position 10 — directly after the bundler bootstrap commands at
positions 8 and 9 and before the optional gem-install command, which then
sits at position 11. -/
theorem bundle_command_iff (o : RubyOptions) :
    List.count "bundle" (get_build_commands o)
      = (if o.ruby_use_bundler = true then 1 else 0)
    ∧ (o.ruby_use_bundler = true →
        (get_build_commands o).get? 10 = some "bundle"
        ∧ (get_build_commands o).get? 9
            = some "gem install --env-shebang --no-document bundler"
        ∧ (o.ruby_gems.isEmpty = false →
            (get_build_commands o).get? 11
              = some ("gem install --env-shebang --no-document "
                  ++ String.intercalate " " o.ruby_gems))) := by
  obtain ⟨htake, hdrop⟩ := plan_take_drop o
  constructor
  · rw [← List.take_append_drop 10 (get_build_commands o), List.count_append,
      htake, hdrop]
    cases hb : o.ruby_use_bundler <;> cases hg : o.ruby_gems.isEmpty <;>
      simp [List.count_cons, List.count_append,
        bundle_ne_ruby_install_cmd o, bundle_ne_rm_cmd o,
        bundle_ne_gem_cmd o.ruby_gems] <;>
      refine ⟨⟨?_, ?_⟩, ?_⟩ <;> decide
  · intro hb
    refine ⟨?_, ?_, ?_⟩
    · show (get_build_commands o).get? 10 = some "bundle"
      unfold get_build_commands
      rw [hb]
      rfl
    · unfold get_build_commands
      rw [hb]
      rfl
    · intro hg
      unfold get_build_commands
      rw [hb, hg]
      rfl

/-- C3 (witness): with bundler on and gems requested, the counts and
positions are as stated. -/
theorem bundle_command_iff_witness :
    List.count "bundle" (get_build_commands sampleOptions) = 1
    ∧ (get_build_commands sampleOptions).get? 10 = some "bundle"
    ∧ (get_build_commands sampleOptions).get? 11
        = some "gem install --env-shebang --no-document rake rspec" := by
  have h := bundle_command_iff sampleOptions
  obtain ⟨hc, hp⟩ := h
  obtain ⟨h10, _, h11⟩ := hp rfl
  exact ⟨by simpa using hc, h10, by simpa using h11 rfl⟩

/-- Appending to a common left part is injective for strings. -/
theorem string_append_left_cancel {a x y : String} (h : a ++ x = a ++ y) :
    x = y := by
  have hd : a.data ++ x.data = a.data ++ y.data := by
    have hc := congrArg String.data h
    rwa [String.data_append, String.data_append] at hc
  exact String.ext (List.append_cancel_left hd)

/-- Unless the space-joined gem list is exactly `bundler`, the gem-install
invocation differs from each of the ten unconditional commands. -/
theorem gem_cmd_not_mem_take10 (o : RubyOptions) (gems : List String)
    (hj : String.intercalate " " gems ≠ "bundler") :
    ("gem install --env-shebang --no-document "
      ++ String.intercalate " " gems) ∉ (get_build_commands o).take 10 := by
  obtain ⟨htake, -⟩ := plan_take_drop o
  rw [htake]
  intro hmem
  simp only [List.mem_cons, List.not_mem_nil, or_false] at hmem
  rcases hmem with h|h|h|h|h|h|h|h|h|h
  · exact absurd h (append_head_ne (c := 'g') _ rfl (by decide))
  · exact absurd h (append_head_ne (c := 'g') _ rfl (by decide))
  · exact absurd h (append_head_ne (c := 'g') _ rfl (by decide))
  · exact absurd h (append_head_ne (c := 'g') _ rfl (by decide))
  · exact absurd h (append_head_ne (c := 'g') _ rfl (by decide))
  · exact absurd h (append_head_ne (c := 'g') _ rfl (by decide))
  · exact absurd h (append_head_ne (c := 'g') _ rfl (by decide))
  · exact absurd h (append_head_ne (c := 'g') _ rfl
      (by rw [ruby_install_invocation_head]; decide))
  · exact absurd h (append_head_ne (c := 'g') _ rfl
      (by rw [rm_bundler_head]; decide))
  · exact hj (string_append_left_cancel (h.trans (by rfl)))

/-- In the optional region of the plan (after position 9), the gem-install
invocation appears exactly once whenever `ruby_gems` is non-empty. -/
theorem count_gem_cmd_drop10 (o : RubyOptions)
    (hg : o.ruby_gems.isEmpty = false) :
    List.count ("gem install --env-shebang --no-document "
        ++ String.intercalate " " o.ruby_gems)
      ((get_build_commands o).drop 10) = 1 := by
  obtain ⟨-, hdrop⟩ := plan_take_drop o
  rw [hdrop]
  have hnb : ¬(("gem install --env-shebang --no-document "
      ++ String.intercalate " " o.ruby_gems) = "bundle") :=
    fun h => bundle_ne_gem_cmd o.ruby_gems h.symm
  cases hb : o.ruby_use_bundler <;>
    simp [hg, hb, List.count_append, List.count_cons, hnb]

/-- The options of the C7 counterexample: the single requested gem is the
dependency manager itself. -/
def bundlerGemOptions : RubyOptions :=
  ⟨"ruby", "3.0", false, "/usr", false, false, [], ["bundler"]⟩

/-- C7 (counterexample): with `ruby_gems = [bundler]` the plan contains the
space-joined gem-install command twice, not exactly once — the
unconditional bundler bootstrap command is textually identical to it. -/
theorem gems_install_count_counterexample :
    List.count ("gem install --env-shebang --no-document "
        ++ String.intercalate " " bundlerGemOptions.ruby_gems)
        (get_build_commands bundlerGemOptions) = 2
    ∧ ¬(List.count ("gem install --env-shebang --no-document "
        ++ String.intercalate " " bundlerGemOptions.ruby_gems)
        (get_build_commands bundlerGemOptions) = 1) := by decide

/-- C7 (amended): when `ruby_gems` is non-empty, exactly one command after
the bootstrap region (positions ≥ 10) is the gem-install invocation of the
listed gems, space-joined in caller order; the plan as a whole contains
exactly one such command provided the joined list is not the single word
`bundler` (in which case the bootstrap install command is textually
identical); when `ruby_gems` is empty, no command of the plan equals the
gem-install invocation. -/
theorem gems_install_command_amended (o : RubyOptions) :
    (o.ruby_gems.isEmpty = false →
      List.count ("gem install --env-shebang --no-document "
          ++ String.intercalate " " o.ruby_gems)
        ((get_build_commands o).drop 10) = 1)
    ∧ (o.ruby_gems.isEmpty = false →
        String.intercalate " " o.ruby_gems ≠ "bundler" →
        List.count ("gem install --env-shebang --no-document "
            ++ String.intercalate " " o.ruby_gems)
          (get_build_commands o) = 1)
    ∧ (o.ruby_gems.isEmpty = true →
        ("gem install --env-shebang --no-document "
          ++ String.intercalate " " o.ruby_gems) ∉ get_build_commands o) := by
  refine ⟨fun hg => count_gem_cmd_drop10 o hg, ?_, ?_⟩
  · intro hg hj
    rw [← List.take_append_drop 10 (get_build_commands o), List.count_append,
      List.count_eq_zero_of_not_mem (gem_cmd_not_mem_take10 o o.ruby_gems hj),
      count_gem_cmd_drop10 o hg]
  · intro hg hmem
    rw [← List.take_append_drop 10 (get_build_commands o)] at hmem
    rcases List.mem_append.mp hmem with h|h
    · have hnil : o.ruby_gems = [] := by
        cases hl : o.ruby_gems with
        | nil => rfl
        | cons x xs => rw [hl] at hg; exact absurd hg (by simp)
      refine gem_cmd_not_mem_take10 o o.ruby_gems ?_ h
      rw [hnil]; decide
    · obtain ⟨-, hdrop⟩ := plan_take_drop o
      rw [hdrop] at h
      cases hb : o.ruby_use_bundler <;> simp [hg, hb] at h
      exact bundle_ne_gem_cmd o.ruby_gems h.symm

/-- C7 (witness): with gems `rake rspec` the joined list is not `bundler`
and the full plan contains the gem-install invocation exactly once. -/
theorem gems_install_command_amended_witness :
    sampleOptions.ruby_gems.isEmpty = false
    ∧ String.intercalate " " sampleOptions.ruby_gems ≠ "bundler"
    ∧ List.count ("gem install --env-shebang --no-document "
        ++ String.intercalate " " sampleOptions.ruby_gems)
        (get_build_commands sampleOptions) = 1 :=
  ⟨rfl, by decide,
   (gems_install_command_amended sampleOptions).2.1 rfl (by decide)⟩

/-- C8: the schema pins the version pattern to exactly the anchored
major.minor(.patch) regex, which rejects `3`, `vX` and the empty string (so
validation rejects those versions); the schema forbids properties outside
the eight recognized keys (`additionalProperties` is false and the property
table lists exactly those keys); every recognized key carries a default, so
the empty mapping validates to the fully-defaulted configuration. -/
theorem schema_rejects_malformed :
    (get_schema.lookup "properties").bind
        (fun p => (p.lookup "ruby-version").bind (fun v => v.lookup "pattern"))
      = some (.str "^\\d+\\.\\d+(\\.\\d+)?$")
    ∧ matches_version_pattern "3" = false
    ∧ matches_version_pattern "vX" = false
    ∧ matches_version_pattern "" = false
    ∧ validate [("ruby-version", .str "3")]
        = .error "SchemaViolation: ruby-version"
    ∧ validate [("ruby-version", .str "vX")]
        = .error "SchemaViolation: ruby-version"
    ∧ validate [("ruby-version", .str "")]
        = .error "SchemaViolation: ruby-version"
    ∧ get_schema.lookup "additionalProperties" = some (.bool false)
    ∧ (get_schema.lookup "properties").map
        (fun p => p.objFields.map Prod.fst) = some recognized_keys
    ∧ validate [("no-such-key", .str "x")]
        = .error "SchemaViolation: additionalProperties"
    ∧ (get_schema.lookup "properties").map
        (fun p => (p.objFields.map
          (fun kv => ((kv.2).lookup "default").isSome)).all id) = some true
    ∧ validate [] = .ok defaultOptions :=
  ⟨rfl, rfl, rfl, rfl, rfl, rfl, rfl, rfl, rfl, rfl, rfl, rfl⟩
